import Mathlib

/-!
Verification of the blog data-schema repository (`app/models.py`).

The file shallowly embeds the data model and the operations the
specification talks about:

* the `AuthorProfile.save` override (write the row, then open the avatar
  file and shrink it in place with PIL's `Image.thumbnail`);
* the `hashed_upload_path` upload-path function (MD5 content hash of the
  avatar bytes), together with a full executable MD5 (RFC 1321);
* the `phone_regex` validator on `AuthorProfile.phone_number`;
* the `Entry` date fields (`default=datetime.now`, `auto_now=True`);
* the `Blog` uniqueness constraints and the declared length ceilings.

Machine integers are modelled as `Nat` with explicit `% 2 ^ 32` where MD5
arithmetic overflows; fallible operations return `Except` or pair the
result state with an optional error.
-/

/-- A file stored on disk, as far as PIL can see it: either a decodable
image with a width and a height, or bytes that `Image.open` cannot decode. -/
inductive FileData where
  | image (w h : Nat)
  | corrupt
deriving DecidableEq, Repr

/-- The media file system: an association list from storage paths to files. -/
abbrev FS : Type := List (String × FileData)

/-- Look a path up in the file system. -/
def fsLookup (fs : FS) (p : String) : Option FileData :=
  match fs with
  | [] => none
  | (q, d) :: rest => if q = p then some d else fsLookup rest p

/-- Write a file at a path, overwriting the previous content if present. -/
def fsSet (fs : FS) (p : String) (d : FileData) : FS :=
  match fs with
  | [] => [(p, d)]
  | (q, e) :: rest => if q = p then (p, d) :: rest else (q, e) :: fsSet rest p d

theorem fsLookup_fsSet (fs : FS) (p : String) (d : FileData) :
    fsLookup (fsSet fs p d) p = some d := by
  induction fs with
  | nil => simp [fsSet, fsLookup]
  | cons hd tl ih =>
    obtain ⟨q, e⟩ := hd
    by_cases hq : q = p
    · simp [fsSet, fsLookup, hq]
    · simp [fsSet, fsLookup, hq, ih]

theorem fsLookup_fsSet_ne (fs : FS) (p p' : String) (d : FileData) (h : p ≠ p') :
    fsLookup (fsSet fs p d) p' = fsLookup fs p' := by
  induction fs with
  | nil => simp [fsSet, fsLookup, h]
  | cons hd tl ih =>
    obtain ⟨q, e⟩ := hd
    by_cases hq : q = p
    · subst hq
      simp [fsSet, fsLookup, h]
    · simp [fsSet, fsLookup, hq, ih]

/-- The classic dimension computation of PIL's `Image.thumbnail`.
Modelled from the spec: the resize step must "resize it to fit within
200×200 pixels", preserving the aspect ratio and never enlarging
("final dimensions ≤200×200 with aspect ratio preserved"); PIL itself is
an external library whose code is not part of this repository.  The
`int(...)` truncating division of the library is `Nat` floor division. -/
def thumbnailDims (w h mw mh : Nat) : Nat × Nat :=
  let p1 : Nat × Nat := if mw < w then (mw, max (h * mw / w) 1) else (w, h)
  if mh < p1.2 then (max (p1.1 * mh / p1.2) 1, mh) else p1

/-- The default value of the `avatar` field (models.py line 103). -/
def defaultAvatarPath : String := "avatars/unnamed.png"

/-- The columns of an `AuthorProfile` row (models.py lines 84-121).
`author` is the id of the related `Author`; each nullable column is an
`Option`; `avatar` holds the stored file path, `none` modelling SQL NULL. -/
structure AuthorProfile where
  author : Nat
  bio : Option String
  avatar : Option String
  phone_number : Option String
  city : Option String
deriving DecidableEq, Repr

/-- Errors the post-write part of `AuthorProfile.save` can raise:
`valueError` is Django's `ValueError` from `self.avatar.path` when the
field has no file (NULL); `fileNotFound` is the `FileNotFoundError` of
`Image.open` on a missing path; `decodeError` is PIL failing to decode
the stored bytes as an image. -/
inductive SaveError where
  | valueError
  | fileNotFound
  | decodeError
deriving DecidableEq, Repr

/-- Database plus media storage visible to `AuthorProfile.save`. -/
structure DbState where
  profiles : List AuthorProfile
  fs : FS
deriving DecidableEq

/-- Persist a profile row: the one-to-one key is `author`, so an existing
row of the same author is replaced, otherwise the row is appended. -/
def writeRow (rows : List AuthorProfile) (p : AuthorProfile) : List AuthorProfile :=
  match rows with
  | [] => [p]
  | r :: rest => if r.author = p.author then p :: rest else r :: writeRow rest p

/-- `AuthorProfile.save` (models.py lines 126-140).  `super().save()` writes
the row first; then, unconditionally, `Image.open(self.avatar.path)` opens
the stored avatar file, `image.thumbnail((200, 200), Image.ANTIALIAS)`
shrinks it in place, and `image.save(self.avatar.path)` overwrites the file
at the same path.  An exception in the post-write part leaves the already
persisted state as is and surfaces as `some` error. -/
def AuthorProfile.save (p : AuthorProfile) (s : DbState) : DbState × Option SaveError :=
  let s1 : DbState := { s with profiles := writeRow s.profiles p }
  match p.avatar with
  | none => (s1, some SaveError.valueError)
  | some path =>
    match fsLookup s1.fs path with
    | none => (s1, some SaveError.fileNotFound)
    | some FileData.corrupt => (s1, some SaveError.decodeError)
    | some (FileData.image w h) =>
      let d := thumbnailDims w h 200 200
      ({ s1 with fs := fsSet s1.fs path (FileData.image d.1 d.2) }, none)

theorem div_le_200_of_le (a t : Nat) (ha : a ≤ 40000) (ht : 201 ≤ t) : a / t ≤ 200 := by
  have h1 : a / t ≤ a / 201 := Nat.div_le_div_left ht (by omega)
  have h2 : a / 201 ≤ 40000 / 201 := Nat.div_le_div_right ha
  have h3 : (40000 : Nat) / 201 = 199 := by norm_num
  omega

theorem thumbnailDims_bounds (w h : Nat) (hw : 1 ≤ w) (hh : 1 ≤ h) :
    1 ≤ (thumbnailDims w h 200 200).1 ∧ (thumbnailDims w h 200 200).1 ≤ 200 ∧
    1 ≤ (thumbnailDims w h 200 200).2 ∧ (thumbnailDims w h 200 200).2 ≤ 200 := by
  by_cases h1 : 200 < w
  · by_cases h2 : 200 < max (h * 200 / w) 1
    · have ht : 201 ≤ max (h * 200 / w) 1 := h2
      have hd : 200 * 200 / max (h * 200 / w) 1 ≤ 200 :=
        div_le_200_of_le _ _ (by omega) ht
      simp only [thumbnailDims, if_pos h1, if_pos h2]
      refine ⟨le_max_right _ 1, ?_, by omega, le_refl 200⟩
      simp only [Nat.max_le]
      omega
    · simp only [thumbnailDims, if_pos h1, if_neg h2]
      refine ⟨by omega, le_refl 200, le_max_right _ 1, by omega⟩
  · by_cases h2 : 200 < h
    · have hd : w * 200 / h ≤ 200 :=
        div_le_200_of_le _ _ (by nlinarith) (by omega)
      simp only [thumbnailDims, if_neg h1, if_pos h2]
      refine ⟨le_max_right _ 1, ?_, by omega, le_refl 200⟩
      simp only [Nat.max_le]
      omega
    · simp only [thumbnailDims, if_neg h1, if_neg h2]
      exact ⟨hw, by omega, hh, by omega⟩

theorem save_avatar_resized (s : DbState) (p : AuthorProfile) (path : String) (w h : Nat)
    (hav : p.avatar = some path) (hfs : fsLookup s.fs path = some (FileData.image w h)) :
    fsLookup (p.save s).1.fs path =
      some (FileData.image (thumbnailDims w h 200 200).1 (thumbnailDims w h 200 200).2) := by
  simp only [AuthorProfile.save, hav, hfs, fsLookup_fsSet]

/-- C1 counterexample: saving a profile whose avatar still holds the default
placeholder `avatars/unnamed.png` does NOT skip the resize step — the file at
the placeholder path is opened, resized (here from 400×300 to 200×150) and
overwritten, contradicting the claim that it is left untouched. -/
theorem save_skip_claim_false :
    fsLookup ((AuthorProfile.save ⟨1, none, some defaultAvatarPath, none, none⟩
        ⟨[], [(defaultAvatarPath, FileData.image 400 300)]⟩).1.fs) defaultAvatarPath =
      some (FileData.image 200 150) ∧
    some (FileData.image 200 150) ≠
      fsLookup [(defaultAvatarPath, FileData.image 400 300)] defaultAvatarPath := by
  decide

/-- C1 (amended): `AuthorProfile.save` never skips the resize step; when the
avatar field holds the default placeholder path and a decodable image is
stored there, the placeholder file itself is opened, resized and
overwritten with its thumbnail. -/
theorem save_default_placeholder_resized (s : DbState) (p : AuthorProfile) (w h : Nat)
    (hav : p.avatar = some defaultAvatarPath)
    (hfs : fsLookup s.fs defaultAvatarPath = some (FileData.image w h)) :
    fsLookup (p.save s).1.fs defaultAvatarPath =
      some (FileData.image (thumbnailDims w h 200 200).1 (thumbnailDims w h 200 200).2) :=
  save_avatar_resized s p defaultAvatarPath w h hav hfs

/-- Witness for C1: a concrete run of `save_default_placeholder_resized`
on a 400×300 placeholder. -/
theorem save_default_placeholder_resized_witness :
    fsLookup ((AuthorProfile.save ⟨2, none, some defaultAvatarPath, none, none⟩
        ⟨[], [(defaultAvatarPath, FileData.image 400 300)]⟩).1.fs) defaultAvatarPath =
      some (FileData.image (thumbnailDims 400 300 200 200).1 (thumbnailDims 400 300 200 200).2) :=
  save_default_placeholder_resized
    ⟨[], [(defaultAvatarPath, FileData.image 400 300)]⟩
    ⟨2, none, some defaultAvatarPath, none, none⟩ 400 300 rfl (by decide)

/-- C2 counterexample: a 400×300 avatar is NOT 200×200 after save —
`Image.thumbnail` preserves the aspect ratio, so the stored file ends up
200×150. -/
theorem save_avatar_not_exactly_200 :
    fsLookup ((AuthorProfile.save ⟨1, none, some "avatars/a.png", none, none⟩
        ⟨[], [("avatars/a.png", FileData.image 400 300)]⟩).1.fs) "avatars/a.png" =
      some (FileData.image 200 150) ∧
    FileData.image 200 150 ≠ FileData.image 200 200 := by
  decide

/-- C2 (amended): after `AuthorProfile.save` on a set avatar of any positive
original dimensions, the stored avatar's dimensions fit within 200×200
(each side between 1 and 200), not exactly 200×200 in general. -/
theorem save_avatar_fits_within_200 (s : DbState) (p : AuthorProfile) (path : String)
    (w h : Nat) (hav : p.avatar = some path)
    (hfs : fsLookup s.fs path = some (FileData.image w h))
    (hw : 1 ≤ w) (hh : 1 ≤ h) :
    ∃ w2 h2, fsLookup (p.save s).1.fs path = some (FileData.image w2 h2) ∧
      1 ≤ w2 ∧ w2 ≤ 200 ∧ 1 ≤ h2 ∧ h2 ≤ 200 := by
  obtain ⟨b1, b2, b3, b4⟩ := thumbnailDims_bounds w h hw hh
  exact ⟨(thumbnailDims w h 200 200).1, (thumbnailDims w h 200 200).2,
    save_avatar_resized s p path w h hav hfs, b1, b2, b3, b4⟩

/-- Witness for C2: the amended bound at a concrete 1024×768 upload. -/
theorem save_avatar_fits_within_200_witness :
    ∃ w2 h2, fsLookup ((AuthorProfile.save ⟨3, none, some "avatars/b.png", none, none⟩
        ⟨[], [("avatars/b.png", FileData.image 1024 768)]⟩).1.fs) "avatars/b.png" =
      some (FileData.image w2 h2) ∧ 1 ≤ w2 ∧ w2 ≤ 200 ∧ 1 ≤ h2 ∧ h2 ≤ 200 :=
  save_avatar_fits_within_200
    ⟨[], [("avatars/b.png", FileData.image 1024 768)]⟩
    ⟨3, none, some "avatars/b.png", none, none⟩ "avatars/b.png" 1024 768
    rfl (by decide) (by decide) (by decide)

/-- C5: when the post-write part of `AuthorProfile.save` fails (null avatar,
missing file, or an undecodable image), the already persisted row is kept —
the profile table still holds the freshly written row — and the avatar file
area is completely unchanged (so an existing file keeps its original,
unresized dimensions). -/
theorem save_failure_keeps_row_and_file (p : AuthorProfile) (s : DbState) (e : SaveError)
    (herr : (p.save s).2 = some e) :
    (p.save s).1.profiles = writeRow s.profiles p ∧ (p.save s).1.fs = s.fs := by
  unfold AuthorProfile.save at herr ⊢
  cases hav : p.avatar with
  | none => simp [hav]
  | some path =>
    cases hlk : fsLookup s.fs path with
    | none => simp [hav, hlk]
    | some d =>
      cases d with
      | corrupt => simp [hav, hlk]
      | image w h => simp [hav, hlk] at herr

/-- Witness for C5: a concrete failing save — the stored bytes at the avatar
path are not decodable as an image, so the resize step fails with a
`decodeError`, yet the row write is kept and the file is untouched. -/
theorem save_failure_keeps_row_and_file_witness :
    ((AuthorProfile.save ⟨4, none, some "avatars/c.png", none, none⟩
        ⟨[], [("avatars/c.png", FileData.corrupt)]⟩).1.profiles =
      writeRow [] ⟨4, none, some "avatars/c.png", none, none⟩) ∧
    ((AuthorProfile.save ⟨4, none, some "avatars/c.png", none, none⟩
        ⟨[], [("avatars/c.png", FileData.corrupt)]⟩).1.fs =
      [("avatars/c.png", FileData.corrupt)]) :=
  save_failure_keeps_row_and_file ⟨4, none, some "avatars/c.png", none, none⟩
    ⟨[], [("avatars/c.png", FileData.corrupt)]⟩ SaveError.decodeError (by decide)

/-- C8: the resize step of `AuthorProfile.save` is idempotent on its fixed
point — saving a profile whose stored avatar is already 200×200 leaves the
stored avatar at exactly 200×200. -/
theorem save_resize_idempotent_200 (s : DbState) (p : AuthorProfile) (path : String)
    (hav : p.avatar = some path)
    (hfs : fsLookup s.fs path = some (FileData.image 200 200)) :
    fsLookup (p.save s).1.fs path = some (FileData.image 200 200) :=
  save_avatar_resized s p path 200 200 hav hfs

/-- Witness for C8: a concrete already-200×200 avatar stays 200×200. -/
theorem save_resize_idempotent_200_witness :
    fsLookup ((AuthorProfile.save ⟨5, none, some "avatars/d.png", none, none⟩
        ⟨[], [("avatars/d.png", FileData.image 200 200)]⟩).1.fs) "avatars/d.png" =
      some (FileData.image 200 200) :=
  save_resize_idempotent_200 ⟨[], [("avatars/d.png", FileData.image 200 200)]⟩
    ⟨5, none, some "avatars/d.png", none, none⟩ "avatars/d.png" rfl (by decide)

/-- C10: `AuthorProfile.save` is not total over the declared (nullable)
domain of `avatar` — with `avatar` NULL the row is written by
`super().save()`, and then `self.avatar.path` in the resize step raises, so
the save surfaces an error after the row is already persisted, with the
file store untouched. -/
theorem save_null_avatar_error_after_row (s : DbState) (p : AuthorProfile)
    (hav : p.avatar = none) :
    (p.save s).2 = some SaveError.valueError ∧
    (p.save s).1.profiles = writeRow s.profiles p ∧ (p.save s).1.fs = s.fs := by
  simp [AuthorProfile.save, hav]

/-- Witness for C10: a concrete profile with a NULL avatar field. -/
theorem save_null_avatar_error_after_row_witness :
    ((AuthorProfile.save ⟨6, none, none, none, none⟩ ⟨[], []⟩).2 =
      some SaveError.valueError) ∧
    ((AuthorProfile.save ⟨6, none, none, none, none⟩ ⟨[], []⟩).1.profiles =
      writeRow [] ⟨6, none, none, none, none⟩) ∧
    ((AuthorProfile.save ⟨6, none, none, none, none⟩ ⟨[], []⟩).1.fs = []) :=
  save_null_avatar_error_after_row ⟨[], []⟩ ⟨6, none, none, none, none⟩ rfl

/-- A Django `ValidationError`, carrying its message. -/
structure ValidationError where
  message : String
deriving DecidableEq, Repr

/-- The message of the `phone_regex` validator (models.py line 108). -/
def phoneMessage : String :=
  "Phone number must be entered in the format: '+79123456789'."

/-- The code-point ranges (inclusive) of the Unicode decimal digits,
general category Nd — exactly the characters `\d` matches in a Python
`str` pattern compiled without `re.ASCII`, as the source regex is: 62
ranges covering 660 characters. -/
def unicodeDigitRanges : List (Nat × Nat) := [
  (48, 57), (1632, 1641), (1776, 1785), (1984, 1993), (2406, 2415),
  (2534, 2543), (2662, 2671), (2790, 2799), (2918, 2927), (3046, 3055),
  (3174, 3183), (3302, 3311), (3430, 3439), (3558, 3567), (3664, 3673),
  (3792, 3801), (3872, 3881), (4160, 4169), (4240, 4249), (6112, 6121),
  (6160, 6169), (6470, 6479), (6608, 6617), (6784, 6793), (6800, 6809),
  (6992, 7001), (7088, 7097), (7232, 7241), (7248, 7257), (42528, 42537),
  (43216, 43225), (43264, 43273), (43472, 43481), (43504, 43513), (43600, 43609),
  (44016, 44025), (65296, 65305), (66720, 66729), (68912, 68921), (69734, 69743),
  (69872, 69881), (69942, 69951), (70096, 70105), (70384, 70393), (70736, 70745),
  (70864, 70873), (71248, 71257), (71360, 71369), (71472, 71481), (71904, 71913),
  (72016, 72025), (72784, 72793), (73040, 73049), (73120, 73129), (92768, 92777),
  (92864, 92873), (93008, 93017), (120782, 120831), (123200, 123209), (123632, 123641),
  (125264, 125273), (130032, 130041)]

/-- Whether a character is a Unicode decimal digit, i.e. what `\d` of the
source pattern matches — not only the ASCII digits. -/
def isUnicodeDigit (c : Char) : Bool :=
  unicodeDigitRanges.any (fun r => decide (r.1 ≤ c.toNat) && decide (c.toNat ≤ r.2))

/-- Whether a string matches the regular expression of the phone validator,
`^\+79\d{9}$` (models.py line 107): a plus sign, the characters 7 and 9,
then exactly nine Unicode decimal digits, and nothing after them. -/
def phoneRegexMatches (s : String) : Bool :=
  match s.data with
  | c1 :: c2 :: c3 :: rest =>
    c1 == '+' && c2 == '7' && c3 == '9' && rest.length == 9 && rest.all isUnicodeDigit
  | _ => false

/-- The `phone_regex` validator (models.py lines 106-109): a
`RegexValidator` raises a `ValidationError` with its message exactly when
the value does not match its regex. -/
def phone_regex (s : String) : Except ValidationError Unit :=
  if phoneRegexMatches s then Except.ok () else Except.error ⟨phoneMessage⟩

theorem phone_regex_ok_shape (s : String) (h : phone_regex s = Except.ok ()) :
    ∃ ds : List Char, s.data = '+' :: '7' :: '9' :: ds ∧
      ds.length = 9 ∧ ∀ c ∈ ds, isUnicodeDigit c = true := by
  unfold phone_regex at h
  by_cases hm : phoneRegexMatches s
  · unfold phoneRegexMatches at hm
    rcases hd : s.data with _ | ⟨c1, _ | ⟨c2, _ | ⟨c3, rest⟩⟩⟩ <;>
      rw [hd] at hm <;> simp [and_assoc] at hm
    obtain ⟨h1, h2, h3, h4, h5⟩ := hm
    subst h1; subst h2; subst h3
    exact ⟨rest, by simp [hd], h4, by simpa [List.all_eq_true] using h5⟩
  · simp [hm] at h

theorem phone_regex_ok_of_shape (s : String) (ds : List Char)
    (hd : s.data = '+' :: '7' :: '9' :: ds) (hlen : ds.length = 9)
    (hdig : ∀ c ∈ ds, isUnicodeDigit c = true) : phone_regex s = Except.ok () := by
  unfold phone_regex phoneRegexMatches
  rw [hd]
  simp [hlen, List.all_eq_true]
  exact hdig

deriving instance DecidableEq for Except

set_option maxRecDepth 4000 in
/-- C4 counterexample: the source validator ACCEPTS `"+79"` followed by
nine Arabic-Indic digits (U+0660-U+0668) — a 12-character value that also
fits the field's `max_length=12` — because `\d` in a Python `str` pattern
matches any Unicode decimal digit; the string is not `+79` followed by
nine ASCII digits (its digit characters all fail `Char.isDigit`), yet it
is not rejected, refuting the claim's universal rejection clause. -/
theorem phone_regex_unicode_digits_accepted :
    phone_regex "+79٠١٢٣٤٥٦٧٨" = Except.ok () ∧
    (("+79٠١٢٣٤٥٦٧٨" : String).data.drop 3).all Char.isDigit = false ∧
    ("+79٠١٢٣٤٥٦٧٨" : String).length = 12 := by
  decide

/-- C4 (amended): the `phone_regex` validator accepts `"+79123456789"`;
it rejects with a `ValidationError` each of `"+7912345678"` (8 digits),
`"89123456789"` (wrong prefix) and `"+79123456789x"` (trailing
character); every value is either accepted or rejected with the
`ValidationError` message; and a value is accepted exactly when it is
`+79` followed by nine UNICODE decimal digits — so any string not of that
shape is rejected, while `+79` plus nine non-ASCII decimal digits is
accepted. -/
theorem phone_regex_validation :
    phone_regex "+79123456789" = Except.ok () ∧
    phone_regex "+7912345678" = Except.error ⟨phoneMessage⟩ ∧
    phone_regex "89123456789" = Except.error ⟨phoneMessage⟩ ∧
    phone_regex "+79123456789x" = Except.error ⟨phoneMessage⟩ ∧
    (∀ s, phone_regex s = Except.ok () ∨ phone_regex s = Except.error ⟨phoneMessage⟩) ∧
    (∀ s, phone_regex s = Except.ok () ↔
      ∃ ds : List Char, s.data = '+' :: '7' :: '9' :: ds ∧
        ds.length = 9 ∧ ∀ c ∈ ds, isUnicodeDigit c = true) := by
  refine ⟨by decide, by decide, by decide, by decide, ?_, ?_⟩
  · intro s
    unfold phone_regex
    by_cases hm : phoneRegexMatches s
    · exact Or.inl (by simp [hm])
    · exact Or.inr (by simp [hm])
  · intro s
    constructor
    · exact phone_regex_ok_shape s
    · rintro ⟨ds, hd, hlen, hdig⟩
      exact phone_regex_ok_of_shape s ds hd hlen hdig

/-- Witness for C4: the acceptance shape applied at the accepted number. -/
theorem phone_regex_validation_witness :
    ∃ ds : List Char, ("+79123456789" : String).data = '+' :: '7' :: '9' :: ds ∧
      ds.length = 9 ∧ ∀ c ∈ ds, isUnicodeDigit c = true :=
  (phone_regex_validation.2.2.2.2.2 "+79123456789").mp (by decide)

/-- The date (day number) of an instant; instants are counted in seconds,
so `datetime.date()` of an instant is its day. -/
def dateOfInstant (t : Nat) : Nat := t / 86400

/-- The columns of an `Entry` row (models.py lines 143-173).  `blog` is the
id of the related `Blog`; `authors` the ids of the many-to-many related
`Author`s; `pub_date` is an instant, `mod_date` a date (day number);
`rating` (a `FloatField` with default `0.0`) is modelled as a rational. -/
structure Entry where
  blog : Nat
  headline : String
  slug_headline : String
  summary : String
  body_text : String
  pub_date : Nat
  mod_date : Nat
  authors : List Nat
  number_of_comments : Int
  number_of_pingbacks : Int
  rating : Rat
deriving DecidableEq

/-- Modelled from the spec: creating an `Entry`.  `pub_date` has
`default=datetime.now` (models.py line 168): "creating an Entry without
specifying pub_date stamps it with the current timestamp at creation", so
a missing caller value defaults to the creation instant `now`; `mod_date`
has `auto_now=True` (line 169) and is stamped with the current date on
this first save as well; the integer and float fields default to 0. -/
def Entry.create (now : Nat) (blog : Nat) (headline slug_headline summary body_text : String)
    (pubDateArg : Option Nat) (authors : List Nat) : Entry :=
  { blog := blog
    headline := headline
    slug_headline := slug_headline
    summary := summary
    body_text := body_text
    pub_date := pubDateArg.getD now
    mod_date := dateOfInstant now
    authors := authors
    number_of_comments := 0
    number_of_pingbacks := 0
    rating := 0 }

/-- Modelled from the spec: re-saving an existing `Entry` at instant `now`.
`auto_now=True` means "mod_date is recomputed to the current date on every
update regardless of caller input", so a caller-supplied `mod_date` value
(`callerModDate`) is ignored; every other column keeps its value. -/
def Entry.resave (now : Nat) (e : Entry) (_callerModDate : Option Nat) : Entry :=
  { e with mod_date := dateOfInstant now }

/-- C6: an `Entry` created without a caller-supplied `pub_date` gets the
creation instant as `pub_date`; re-saving at any later instant recomputes
`mod_date` to the current date, ignores any caller-supplied `mod_date`,
and leaves `pub_date` (and every other column) unchanged. -/
theorem entry_dates_behavior :
    (∀ now blog hl sl su bo au,
      (Entry.create now blog hl sl su bo none au).pub_date = now) ∧
    (∀ now blog hl sl su bo au,
      (Entry.create now blog hl sl su bo none au).mod_date = dateOfInstant now) ∧
    (∀ later e caller,
      (Entry.resave later e caller).mod_date = dateOfInstant later ∧
      (Entry.resave later e caller).pub_date = e.pub_date ∧
      (Entry.resave later e caller).headline = e.headline ∧
      (Entry.resave later e caller).blog = e.blog) ∧
    (∀ later e caller ignored,
      Entry.resave later e (some caller) = Entry.resave later e ignored) := by
  exact ⟨fun _ _ _ _ _ _ _ => rfl, fun _ _ _ _ _ _ _ => rfl,
    fun _ _ _ => ⟨rfl, rfl, rfl, rfl⟩, fun _ _ _ _ => rfl⟩

/-- The columns of a `Blog` row (models.py lines 13-45). -/
structure Blog where
  name : String
  slug_name : String
  headline : Option String
  description : Option String
deriving DecidableEq, Repr

/-- A uniqueness-constraint breach at the persistence boundary, naming the
violated constraint: `name` is unique, `slug_name` is unique, and
`(name, slug_name)` is declared `unique_together` (models.py lines 19-26
and 43-45). -/
inductive ConstraintViolation where
  | uniqueName
  | uniqueSlug
  | uniqueTogether
deriving DecidableEq, Repr

/-- Modelled from the spec: the persistence layer's write-time constraint
check for inserting a `Blog` row — "creating a Blog ... fails with a
ConstraintViolation when any unique or joint-unique constraint is
violated".  The declared constraints are those of models.py lines 19-26
and 43-45. -/
def insertBlog (db : List Blog) (b : Blog) : Except ConstraintViolation (List Blog) :=
  if db.any (fun b2 => b2.name == b.name) then Except.error ConstraintViolation.uniqueName
  else if db.any (fun b2 => b2.slug_name == b.slug_name) then
    Except.error ConstraintViolation.uniqueSlug
  else if db.any (fun b2 => b2.name == b.name && b2.slug_name == b.slug_name) then
    Except.error ConstraintViolation.uniqueTogether
  else Except.ok (db ++ [b])

/-- C7: with a `Blog` row already present, inserting a second `Blog` with
the same `name`, or the same `slug_name`, or the same `(name, slug_name)`
pair fails with a `ConstraintViolation`, while inserting one whose `name`
and `slug_name` both differ from those of every existing row succeeds. -/
theorem blog_unique_constraints (db : List Blog) (b1 b2 : Blog) (hmem : b1 ∈ db) :
    (b2.name = b1.name → ∃ e, insertBlog db b2 = Except.error e) ∧
    (b2.slug_name = b1.slug_name → ∃ e, insertBlog db b2 = Except.error e) ∧
    (b2.name = b1.name ∧ b2.slug_name = b1.slug_name →
      ∃ e, insertBlog db b2 = Except.error e) ∧
    ((∀ b3 ∈ db, b2.name ≠ b3.name ∧ b2.slug_name ≠ b3.slug_name) →
      insertBlog db b2 = Except.ok (db ++ [b2])) := by
  refine ⟨?_, ?_, ?_, ?_⟩
  · intro hn
    have hany : db.any (fun b3 => b3.name == b2.name) = true :=
      List.any_eq_true.mpr ⟨b1, hmem, by simp [hn]⟩
    exact ⟨ConstraintViolation.uniqueName, by simp [insertBlog, hany]⟩
  · intro hs
    by_cases hn : db.any (fun b3 => b3.name == b2.name)
    · exact ⟨ConstraintViolation.uniqueName, by simp [insertBlog, hn]⟩
    · have hany : db.any (fun b3 => b3.slug_name == b2.slug_name) = true :=
        List.any_eq_true.mpr ⟨b1, hmem, by simp [hs]⟩
      exact ⟨ConstraintViolation.uniqueSlug, by simp [insertBlog, hn, hany]⟩
  · intro ⟨hn, _⟩
    have hany : db.any (fun b3 => b3.name == b2.name) = true :=
      List.any_eq_true.mpr ⟨b1, hmem, by simp [hn]⟩
    exact ⟨ConstraintViolation.uniqueName, by simp [insertBlog, hany]⟩
  · intro hfresh
    have hn : db.any (fun b3 => b3.name == b2.name) = false := by
      simp only [List.any_eq_false, beq_iff_eq]
      intro b3 hb3 h
      exact (hfresh b3 hb3).1 h.symm
    have hs : db.any (fun b3 => b3.slug_name == b2.slug_name) = false := by
      simp only [List.any_eq_false, beq_iff_eq]
      intro b3 hb3 h
      exact (hfresh b3 hb3).2 h.symm
    have hns : db.any (fun b3 => b3.name == b2.name && b3.slug_name == b2.slug_name) = false := by
      simp only [List.any_eq_false, Bool.and_eq_true, beq_iff_eq, not_and]
      intro b3 hb3 h _
      exact (hfresh b3 hb3).1 h.symm
    simp [insertBlog, hn, hs, hns]

/-- Witness for C7: concrete duplicate-name failure and fresh-pair success
against a one-row table. -/
theorem blog_unique_constraints_witness :
    (∃ e, insertBlog [⟨"Tech", "tech", none, none⟩] ⟨"Tech", "tech2", none, none⟩ =
      Except.error e) ∧
    insertBlog [⟨"Tech", "tech", none, none⟩] ⟨"Life", "life", none, none⟩ =
      Except.ok ([⟨"Tech", "tech", none, none⟩] ++ [⟨"Life", "life", none, none⟩]) :=
  ⟨(blog_unique_constraints [⟨"Tech", "tech", none, none⟩] ⟨"Tech", "tech", none, none⟩
      ⟨"Tech", "tech2", none, none⟩ (by simp)).1 rfl,
   (blog_unique_constraints [⟨"Tech", "tech", none, none⟩] ⟨"Tech", "tech", none, none⟩
      ⟨"Life", "life", none, none⟩ (by simp)).2.2.2 (by decide)⟩

/-- The columns of an `Author` row (models.py lines 48-63). -/
structure Author where
  name : String
  email : String
deriving DecidableEq, Repr

/-- One max-length check: a value longer than the declared ceiling is a
`ValidationError`. -/
def checkMaxLength (field : String) (limit : Nat) (v : String) :
    Except ValidationError Unit :=
  if limit < v.length then Except.error ⟨field ++ " exceeds its max_length"⟩
  else Except.ok ()

/-- The max-length check on a nullable column: NULL passes. -/
def checkOptMaxLength (field : String) (limit : Nat) :
    Option String → Except ValidationError Unit
  | none => Except.ok ()
  | some v => checkMaxLength field limit v

/-- Run a list of validation checks, surfacing the first failure. -/
def runChecks : List (Except ValidationError Unit) → Except ValidationError Unit
  | [] => Except.ok ()
  | c :: rest =>
    match c with
    | Except.error e => Except.error e
    | Except.ok () => runChecks rest

theorem runChecks_error_of_mem (cs : List (Except ValidationError Unit))
    (e : ValidationError) (hc : Except.error e ∈ cs) :
    ∃ e2, runChecks cs = Except.error e2 := by
  induction cs with
  | nil => cases hc
  | cons c rest ih =>
    cases c with
    | error e3 => exact ⟨e3, rfl⟩
    | ok u =>
      cases u
      rcases List.mem_cons.mp hc with h | h
      · cases h
      · simpa [runChecks] using ih h

/-- Modelled from the spec: write-time validation of a `Blog` against the
declared length ceilings — `name` ≤ 100 (models.py line 19), `slug_name`
≤ 50 (the `SlugField` default ceiling), `headline` ≤ 255 (line 28);
`description` has no declared ceiling. -/
def Blog.full_clean (b : Blog) : Except ValidationError Unit :=
  runChecks [checkMaxLength "name" 100 b.name,
    checkMaxLength "slug_name" 50 b.slug_name,
    checkOptMaxLength "headline" 255 b.headline]

/-- Modelled from the spec: write-time validation of an `Author` — `name`
≤ 200 (models.py line 55), `email` ≤ 254 (the `EmailField` default). -/
def Author.full_clean (a : Author) : Except ValidationError Unit :=
  runChecks [checkMaxLength "name" 200 a.name,
    checkMaxLength "email" 254 a.email]

/-- Modelled from the spec: write-time validation of an `AuthorProfile` —
`phone_number` ≤ 12 (models.py line 111) and matching `phone_regex` when
present, `city` ≤ 120 (line 117); `bio` has no declared ceiling. -/
def AuthorProfile.full_clean (p : AuthorProfile) : Except ValidationError Unit :=
  runChecks [checkOptMaxLength "phone_number" 12 p.phone_number,
    (match p.phone_number with
     | none => Except.ok ()
     | some v => phone_regex v),
    checkOptMaxLength "city" 120 p.city]

/-- Modelled from the spec: write-time validation of an `Entry` —
`headline` ≤ 255 (models.py line 164), `slug_headline` ≤ 255 (line 165);
`summary` and `body_text` have no declared ceiling. -/
def Entry.full_clean (e : Entry) : Except ValidationError Unit :=
  runChecks [checkMaxLength "headline" 255 e.headline,
    checkMaxLength "slug_headline" 255 e.slug_headline]

/-- Modelled from the spec: a validated write — validation runs first and a
failure is "surfaced before the record is persisted", so a failing record
is never appended to the table. -/
def validatedInsert {α : Type} (clean : α → Except ValidationError Unit)
    (db : List α) (x : α) : Except ValidationError (List α) :=
  match clean x with
  | Except.error e => Except.error e
  | Except.ok () => Except.ok (db ++ [x])

theorem checkMaxLength_long (f : String) (l : Nat) (v : String) (h : l < v.length) :
    checkMaxLength f l v = Except.error ⟨f ++ " exceeds its max_length"⟩ := by
  simp [checkMaxLength, h]

theorem validatedInsert_error {α : Type} (clean : α → Except ValidationError Unit)
    (db : List α) (x : α) (e : ValidationError) (h : clean x = Except.error e) :
    validatedInsert clean db x = Except.error e := by
  simp [validatedInsert, h]

theorem runChecks_error_of_eq (cs : List (Except ValidationError Unit))
    (c : Except ValidationError Unit) (e : ValidationError)
    (hc : c ∈ cs) (he : c = Except.error e) :
    ∃ e2, runChecks cs = Except.error e2 :=
  runChecks_error_of_mem cs e (he ▸ hc)

/-- C9: for a validated write of any of the four record types, a field
value exceeding that field's declared length ceiling (for example a `Blog`
headline longer than 255 characters) makes the write fail with a
`ValidationError` — the record is rejected and never appended to the
table. -/
theorem length_validation_rejects :
    (∀ (db : List Blog) (b : Blog),
      (100 < b.name.length ∨ 50 < b.slug_name.length ∨
        (∃ hl, b.headline = some hl ∧ 255 < hl.length)) →
      ∃ e, validatedInsert Blog.full_clean db b = Except.error e) ∧
    (∀ (db : List Author) (a : Author),
      (200 < a.name.length ∨ 254 < a.email.length) →
      ∃ e, validatedInsert Author.full_clean db a = Except.error e) ∧
    (∀ (db : List AuthorProfile) (p : AuthorProfile),
      ((∃ v, p.phone_number = some v ∧ 12 < v.length) ∨
        (∃ v, p.city = some v ∧ 120 < v.length)) →
      ∃ e, validatedInsert AuthorProfile.full_clean db p = Except.error e) ∧
    (∀ (db : List Entry) (en : Entry),
      (255 < en.headline.length ∨ 255 < en.slug_headline.length) →
      ∃ e, validatedInsert Entry.full_clean db en = Except.error e) := by
  refine ⟨?_, ?_, ?_, ?_⟩
  · intro db b hover
    have hcl : ∃ e2, Blog.full_clean b = Except.error e2 := by
      unfold Blog.full_clean
      rcases hover with h | h | ⟨hl, hhl, hlen⟩
      · exact runChecks_error_of_eq _ (checkMaxLength "name" 100 b.name) _
          (by simp) (checkMaxLength_long _ _ _ h)
      · exact runChecks_error_of_eq _ (checkMaxLength "slug_name" 50 b.slug_name) _
          (by simp) (checkMaxLength_long _ _ _ h)
      · exact runChecks_error_of_eq _ (checkOptMaxLength "headline" 255 b.headline)
          ⟨"headline" ++ " exceeds its max_length"⟩
          (by simp) (by simp [checkOptMaxLength, hhl, checkMaxLength_long _ _ _ hlen])
    obtain ⟨e2, he⟩ := hcl
    exact ⟨e2, validatedInsert_error _ _ _ _ he⟩
  · intro db a hover
    have hcl : ∃ e2, Author.full_clean a = Except.error e2 := by
      unfold Author.full_clean
      rcases hover with h | h
      · exact runChecks_error_of_eq _ (checkMaxLength "name" 200 a.name) _
          (by simp) (checkMaxLength_long _ _ _ h)
      · exact runChecks_error_of_eq _ (checkMaxLength "email" 254 a.email) _
          (by simp) (checkMaxLength_long _ _ _ h)
    obtain ⟨e2, he⟩ := hcl
    exact ⟨e2, validatedInsert_error _ _ _ _ he⟩
  · intro db p hover
    have hcl : ∃ e2, AuthorProfile.full_clean p = Except.error e2 := by
      unfold AuthorProfile.full_clean
      rcases hover with ⟨v, hv, hlen⟩ | ⟨v, hv, hlen⟩
      · exact runChecks_error_of_eq _ (checkOptMaxLength "phone_number" 12 p.phone_number)
          ⟨"phone_number" ++ " exceeds its max_length"⟩
          (by simp) (by simp [checkOptMaxLength, hv, checkMaxLength_long _ _ _ hlen])
      · exact runChecks_error_of_eq _ (checkOptMaxLength "city" 120 p.city)
          ⟨"city" ++ " exceeds its max_length"⟩
          (by simp) (by simp [checkOptMaxLength, hv, checkMaxLength_long _ _ _ hlen])
    obtain ⟨e2, he⟩ := hcl
    exact ⟨e2, validatedInsert_error _ _ _ _ he⟩
  · intro db en hover
    have hcl : ∃ e2, Entry.full_clean en = Except.error e2 := by
      unfold Entry.full_clean
      rcases hover with h | h
      · exact runChecks_error_of_eq _ (checkMaxLength "headline" 255 en.headline) _
          (by simp) (checkMaxLength_long _ _ _ h)
      · exact runChecks_error_of_eq _ (checkMaxLength "slug_headline" 255 en.slug_headline) _
          (by simp) (checkMaxLength_long _ _ _ h)
    obtain ⟨e2, he⟩ := hcl
    exact ⟨e2, validatedInsert_error _ _ _ _ he⟩

set_option maxRecDepth 4000 in
/-- Witness for C9: a `Blog` whose headline is 256 characters long is
rejected by the validated write. -/
theorem length_validation_rejects_witness :
    ∃ e, validatedInsert Blog.full_clean []
      ⟨"Tech", "tech", some (String.mk (List.replicate 256 'x')), none⟩ =
      Except.error e :=
  length_validation_rejects.1 [] _
    (Or.inr (Or.inr ⟨String.mk (List.replicate 256 'x'), rfl, by decide⟩))

/-- Left rotation of a 32-bit word held in a `Nat` below `2 ^ 32`. -/
def rotl32 (x n : Nat) : Nat := ((x <<< n) % 4294967296) ||| (x >>> (32 - n))

/-- 32-bit bitwise complement. -/
def not32 (x : Nat) : Nat := x ^^^ 4294967295

def md5F (b c d : Nat) : Nat := (b &&& c) ||| (not32 b &&& d)

def md5G (b c d : Nat) : Nat := (d &&& b) ||| (not32 d &&& c)

def md5H (b c d : Nat) : Nat := b ^^^ c ^^^ d

def md5I (b c d : Nat) : Nat := c ^^^ (b ||| not32 d)

/-- The 64 MD5 sine constants of RFC 1321 (`hashlib.md5` computes this
function; `hashlib` is an external library whose code is not part of this
repository, so MD5 is embedded here directly from its specification). -/
def md5K : List Nat := [
  3614090360, 3905402710, 606105819, 3250441966, 4118548399, 1200080426,
  2821735955, 4249261313, 1770035416, 2336552879, 4294925233, 2304563134,
  1804603682, 4254626195, 2792965006, 1236535329, 4129170786, 3225465664,
  643717713, 3921069994, 3593408605, 38016083, 3634488961, 3889429448,
  568446438, 3275163606, 4107603335, 1163531501, 2850285829, 4243563512,
  1735328473, 2368359562, 4294588738, 2272392833, 1839030562, 4259657740,
  2763975236, 1272893353, 4139469664, 3200236656, 681279174, 3936430074,
  3572445317, 76029189, 3654602809, 3873151461, 530742520, 3299628645,
  4096336452, 1126891415, 2878612391, 4237533241, 1700485571, 2399980690,
  4293915773, 2240044497, 1873313359, 4264355552, 2734768916, 1309151649,
  4149444226, 3174756917, 718787259, 3951481745]

/-- The per-round left-rotation amounts of MD5. -/
def md5S : List Nat := [
  7, 12, 17, 22, 7, 12, 17, 22, 7, 12, 17, 22, 7, 12, 17, 22,
  5, 9, 14, 20, 5, 9, 14, 20, 5, 9, 14, 20, 5, 9, 14, 20,
  4, 11, 16, 23, 4, 11, 16, 23, 4, 11, 16, 23, 4, 11, 16, 23,
  6, 10, 15, 21, 6, 10, 15, 21, 6, 10, 15, 21, 6, 10, 15, 21]

/-- The `i`-th little-endian 32-bit word of a byte list. -/
def leWord (bs : List Nat) (i : Nat) : Nat :=
  bs.getD (4 * i) 0 + 256 * bs.getD (4 * i + 1) 0 +
    65536 * bs.getD (4 * i + 2) 0 + 16777216 * bs.getD (4 * i + 3) 0

/-- One of the 64 MD5 rounds on the state `(a, b, c, d)`. -/
def md5Step (block : List Nat) (st : Nat × Nat × Nat × Nat) (i : Nat) :
    Nat × Nat × Nat × Nat :=
  let a := st.1
  let b := st.2.1
  let c := st.2.2.1
  let d := st.2.2.2
  let f := if i < 16 then md5F b c d else if i < 32 then md5G b c d
    else if i < 48 then md5H b c d else md5I b c d
  let g := if i < 16 then i else if i < 32 then (5 * i + 1) % 16
    else if i < 48 then (3 * i + 5) % 16 else (7 * i) % 16
  let tmp := (a + f + md5K.getD i 0 + leWord block g) % 4294967296
  (d, (b + rotl32 tmp (md5S.getD i 0)) % 4294967296, b, c)

/-- Process one 64-byte block, adding the round output into the state. -/
def md5Block (st : Nat × Nat × Nat × Nat) (block : List Nat) :
    Nat × Nat × Nat × Nat :=
  let r := (List.range 64).foldl (md5Step block) st
  ((st.1 + r.1) % 4294967296, (st.2.1 + r.2.1) % 4294967296,
    (st.2.2.1 + r.2.2.1) % 4294967296, (st.2.2.2 + r.2.2.2) % 4294967296)

/-- How many padding bytes (`0x80` plus zeros) MD5 appends to a message of
the given length so that the padded length is 56 modulo 64. -/
def md5PadLen (len : Nat) : Nat := (119 - len % 64) % 64 + 1

/-- The eight little-endian bytes of a 64-bit value. -/
def leBytes8 (n : Nat) : List Nat :=
  [n % 256, n / 256 % 256, n / 65536 % 256, n / 16777216 % 256,
    n / 4294967296 % 256, n / 1099511627776 % 256,
    n / 281474976710656 % 256, n / 72057594037927936 % 256]

/-- MD5 message padding: `0x80`, zeros, then the bit length modulo `2 ^ 64`. -/
def md5Pad (msg : List Nat) : List Nat :=
  msg ++ (128 :: List.replicate (md5PadLen msg.length - 1) 0) ++
    leBytes8 ((8 * msg.length) % 18446744073709551616)

/-- The four little-endian bytes of a 32-bit value. -/
def leBytes4 (n : Nat) : List Nat :=
  [n % 256, n / 256 % 256, n / 65536 % 256, n / 16777216 % 256]

/-- The 16-byte MD5 digest of a byte list (RFC 1321). -/
def md5Digest (msg : List Nat) : List Nat :=
  let padded := md5Pad msg
  let r := (List.range (padded.length / 64)).foldl
    (fun st j => md5Block st ((padded.drop (64 * j)).take 64))
    (1732584193, 4023233417, 2562383102, 271733878)
  leBytes4 r.1 ++ leBytes4 r.2.1 ++ leBytes4 r.2.2.1 ++ leBytes4 r.2.2.2

/-- A lowercase hexadecimal digit. -/
def hexDigitChar (n : Nat) : Char :=
  if n < 10 then Char.ofNat (48 + n) else Char.ofNat (87 + n)

/-- The two lowercase hex characters of a byte. -/
def byteToHex (b : Nat) : List Char := [hexDigitChar (b / 16), hexDigitChar (b % 16)]

/-- `hashlib.md5(...).hexdigest()`: the lowercase hex MD5 digest string. -/
def md5hex (msg : List Nat) : String :=
  String.mk (((md5Digest msg).map byteToHex).flatten)

set_option maxRecDepth 10000 in
/-- MD5 test vector of RFC 1321: the empty message. -/
theorem md5hex_empty : md5hex [] = "d41d8cd98f00b204e9800998ecf8427e" := by decide

set_option maxRecDepth 10000 in
/-- MD5 test vector of RFC 1321: the message "abc". -/
theorem md5hex_abc : md5hex [97, 98, 99] = "900150983cd24fb0d6963f7d28e17f72" := by
  decide

/-- The extension part of `os.path.splitext`: everything from the last dot
of the final path component, provided some earlier character of that
component is not a dot (leading dots are not extension separators). -/
def extOf (p : String) : String :=
  let base := (p.data.reverse.takeWhile (fun c => c ≠ '/')).reverse
  let afterDot := base.reverse.takeWhile (fun c => c ≠ '.')
  if afterDot.length = base.length then ""
  else
    let dotIndex := base.length - afterDot.length - 1
    let leading := (base.takeWhile (fun c => c = '.')).length
    if leading < dotIndex then String.mk (base.drop dotIndex) else ""

/-- The data `hashed_upload_path` reads off the profile being saved
(models.py lines 66-81): `instance.author.name` and the bytes returned by
`instance.avatar.read()`. -/
structure UploadInstance where
  authorName : String
  avatarBytes : List Nat
deriving DecidableEq

/-- `hashed_upload_path` (models.py lines 66-81): the stored path is
`os.path.join("avatars", new_filename)` where `new_filename` is the
author's name, an underscore, `hashlib.md5(instance.avatar.read())
.hexdigest()`, and the original extension `os.path.splitext(filename)[1]`.
The Python `instance` argument is `inst` here (`instance` is reserved). -/
def hashed_upload_path (inst : UploadInstance) (filename : String) : String :=
  "avatars/" ++ inst.authorName ++ "_" ++ md5hex inst.avatarBytes ++ extOf filename

/-- The first message of the classic Wang-et-al. MD5 collision pair. -/
def wangA : List Nat := [
  209, 49, 221, 2, 197, 230, 238, 196, 105, 61, 154, 6, 152, 175, 249,
  92, 47, 202, 181, 135, 18, 70, 126, 171, 64, 4, 88, 62, 184, 251,
  127, 137, 85, 173, 52, 6, 9, 244, 179, 2, 131, 228, 136, 131, 37,
  113, 65, 90, 8, 81, 37, 232, 247, 205, 201, 159, 217, 29, 189, 242,
  128, 55, 60, 91, 216, 130, 62, 49, 86, 52, 143, 91, 174, 109, 172,
  212, 54, 201, 25, 198, 221, 83, 226, 180, 135, 218, 3, 253, 2, 57,
  99, 6, 210, 72, 205, 160, 233, 159, 51, 66, 15, 87, 126, 232, 206,
  84, 182, 112, 128, 168, 13, 30, 198, 152, 33, 188, 182, 168, 131,
  147, 150, 249, 101, 43, 111, 247, 42, 112]

/-- The second message of the classic Wang-et-al. MD5 collision pair; it
differs from `wangA` in exactly the six bytes at positions 19, 45, 59, 83,
109 and 123, yet has the same MD5 digest. -/
def wangB : List Nat := [
  209, 49, 221, 2, 197, 230, 238, 196, 105, 61, 154, 6, 152, 175, 249,
  92, 47, 202, 181, 7, 18, 70, 126, 171, 64, 4, 88, 62, 184, 251, 127,
  137, 85, 173, 52, 6, 9, 244, 179, 2, 131, 228, 136, 131, 37, 241, 65,
  90, 8, 81, 37, 232, 247, 205, 201, 159, 217, 29, 189, 114, 128, 55,
  60, 91, 216, 130, 62, 49, 86, 52, 143, 91, 174, 109, 172, 212, 54,
  201, 25, 198, 221, 83, 226, 52, 135, 218, 3, 253, 2, 57, 99, 6, 210,
  72, 205, 160, 233, 159, 51, 66, 15, 87, 126, 232, 206, 84, 182, 112,
  128, 40, 13, 30, 198, 152, 33, 188, 182, 168, 131, 147, 150, 249,
  101, 171, 111, 247, 42, 112]

set_option maxRecDepth 40000 in
/-- C3 counterexample: two distinct 128-byte uploads (the Wang-et-al. MD5
collision pair) stored for the same author under the same original
filename receive the IDENTICAL stored path — so changing bytes of the
image does not always change the stored filename, because the filename
depends on the bytes only through their MD5 digest and MD5 collides. -/
theorem hashed_upload_path_md5_collision :
    wangA ≠ wangB ∧
    hashed_upload_path ⟨"Ivan", wangA⟩ "a.png" =
      hashed_upload_path ⟨"Ivan", wangB⟩ "a.png" := by
  decide

/-- C3 (amended): the stored path is `avatars/` + author name + `_` + the
lowercase hex MD5 of the uploaded bytes + the original extension; the path
is a function of those data, so identical bytes for the same author give
the identical stored filename both times; and for the same author and
original filename, the stored filenames differ whenever the MD5 digests of
the bytes differ (but not necessarily whenever the bytes differ — see the
collision counterexample). -/
theorem hashed_upload_path_content_addressed :
    (∀ (i : UploadInstance) (fn : String),
      hashed_upload_path i fn =
        "avatars/" ++ i.authorName ++ "_" ++ md5hex i.avatarBytes ++ extOf fn) ∧
    (∀ (i1 i2 : UploadInstance) (fn : String), i1.authorName = i2.authorName →
      i1.avatarBytes = i2.avatarBytes →
      hashed_upload_path i1 fn = hashed_upload_path i2 fn) ∧
    (∀ (i1 i2 : UploadInstance) (fn : String), i1.authorName = i2.authorName →
      md5hex i1.avatarBytes ≠ md5hex i2.avatarBytes →
      hashed_upload_path i1 fn ≠ hashed_upload_path i2 fn) := by
  refine ⟨fun i fn => rfl, ?_, ?_⟩
  · intro i1 i2 fn h1 h2
    unfold hashed_upload_path
    rw [h1, h2]
  · intro i1 i2 fn h1 hmd5 heq
    apply hmd5
    unfold hashed_upload_path at heq
    rw [h1] at heq
    have hd := congrArg String.data heq
    simp only [String.data_append, List.append_assoc] at hd
    have hd2 := List.append_cancel_left hd
    have hd3 := List.append_cancel_left hd2
    have hd4 := List.append_cancel_left hd3
    have hd5 := List.append_cancel_right hd4
    exact String.ext hd5

set_option maxRecDepth 10000 in
/-- Witness for C3 (amended): two one-byte uploads with different digests
get different stored filenames. -/
theorem hashed_upload_path_content_addressed_witness :
    hashed_upload_path ⟨"a", [0]⟩ "x.png" ≠ hashed_upload_path ⟨"a", [1]⟩ "x.png" :=
  hashed_upload_path_content_addressed.2.2 ⟨"a", [0]⟩ ⟨"a", [1]⟩ "x.png" rfl (by decide)
